import Mathlib

/-
Verification of the redis-app / micro-pipeline job subsystem of
skycluster-project/skycluster-apps against its specification.

Shallow embedding: the Redis key space is modelled as explicit state
records (job hashes as functions from id to an optional Job record,
locks as functions from id to an optional expiry time, the queue as a
list of ids).  Opaque collaborators (base64 decoding, the PIL image
transform, the HTTP hop to the aggregator) are parameters of the
embedded operations, exactly as the spec treats them as external
collaborators.  Timestamps are rationals.
-/

namespace SkyApps

/-- Job hash record, mirroring the fields the services write into the
Redis hash `job:<id>`.  Every field is optional: a Redis hash only holds
the fields that some writer has set. -/
structure Job where
  id : Option String := none
  status : Option String := none
  created_at : Option ℚ := none
  started_at : Option ℚ := none
  processed_at : Option ℚ := none
  finished_at : Option ℚ := none
  result : Option String := none
  result_path : Option String := none
  error : Option String := none
  payload : Option String := none
  processing_time : Option ℚ := none
  deriving DecidableEq, Repr

/-- Point update of a string-keyed partial map (Redis SET / HSET on a key). -/
def upd {α : Type} (f : String → Option α) (k : String) (v : α) : String → Option α :=
  fun x => if x = k then some v else f x

/-- Key deletion in a string-keyed partial map (Redis DEL). -/
def delKey {α : Type} (f : String → Option α) (k : String) : String → Option α :=
  fun x => if x = k then none else f x

/-- Redis HSET on a job hash: updates the fields of the existing hash, or of a
fresh empty hash when the key does not exist yet (HSET creates the key). -/
def hsetJob (jobs : String → Option Job) (id : String) (f : Job → Job) :
    String → Option Job :=
  upd jobs id (f ((jobs id).getD {}))

/-! ## Aggregator (micro-pipeline/aggregator/main.py) -/

/-- State visible to the aggregator: job hashes, the per-job persisted
artifact (the file written under JOBS_DIR), the published notifications, and
the Prometheus counters the finalize endpoint touches. -/
structure AggState where
  jobs : String → Option Job
  artifacts : String → Option (List Nat)
  notifications : List String
  duplicates : Nat
  finalize_errors : Nat
  finalize_total : Nat

/-- Responses of the /finalize endpoint (reason codes of aggregator main.py). -/
inductive AggResp
  | missingFields
  | alreadyFinished
  | invalidBase64
  | emptyProcessedPayload
  | payloadTooLarge
  | finished (path : String) (bytes : Nat)
  deriving DecidableEq, Repr

/-- HTTP status code attached to each /finalize response in the source. -/
def AggResp.httpStatus : AggResp → Nat
  | AggResp.missingFields => 400
  | AggResp.alreadyFinished => 200
  | AggResp.invalidBase64 => 400
  | AggResp.emptyProcessedPayload => 400
  | AggResp.payloadTooLarge => 413
  | AggResp.finished _ _ => 200

/-- The /finalize handler of aggregator main.py, from the point where the JSON
body has been parsed into its `job_id` and `processed_b64` fields (an absent
field is the empty string, matching the falsy check in the source).  `decode`
is the opaque base64 decoder (`none` models a binascii/Value error), `now` the
wall clock.  Mirrors the source order: missing-field check, duplicate check
against the stored status, best-effort `finalizing` write, decode, emptiness
and size validation, artifact write, terminal `finished` hash write,
notification publish. -/
def finalize (decode : String → Option (List Nat)) (maxResultBytes : Nat)
    (jobsDir : String) (now : ℚ) (job_id processed_b64 : String)
    (s : AggState) : AggResp × AggState :=
  if job_id = "" ∨ processed_b64 = "" then
    (AggResp.missingFields, { s with finalize_errors := s.finalize_errors + 1 })
  else if (s.jobs job_id).bind Job.status = some "finished" then
    (AggResp.alreadyFinished, { s with duplicates := s.duplicates + 1 })
  else
    let jobs1 := hsetJob s.jobs job_id (fun j => { j with status := some "finalizing" })
    let s1 : AggState := { s with jobs := jobs1 }
    match decode processed_b64 with
    | none => (AggResp.invalidBase64, { s1 with finalize_errors := s1.finalize_errors + 1 })
    | some bytes =>
      if bytes.length = 0 then
        (AggResp.emptyProcessedPayload,
          { s1 with finalize_errors := s1.finalize_errors + 1 })
      else if maxResultBytes < bytes.length then
        (AggResp.payloadTooLarge, { s1 with finalize_errors := s1.finalize_errors + 1 })
      else
        let path := jobsDir ++ "/" ++ job_id ++ ".png"
        (AggResp.finished path bytes.length,
          { s1 with
            artifacts := upd s1.artifacts job_id bytes
            jobs := hsetJob jobs1 job_id (fun j =>
              { j with status := some "finished", result_path := some path,
                       finished_at := some now })
            notifications := s1.notifications ++ [job_id]
            finalize_total := s1.finalize_total + 1 })

/-! ## Processor (micro-pipeline/processor/main.py) -/

/-- State visible to the processor: job hashes, the lock key space
(`lock:job:<id>`, stored here as id to absolute expiry time), and the
Prometheus counters the /process endpoint touches. -/
structure ProcState where
  jobs : String → Option Job
  locks : String → Option ℚ
  lock_acquired : Nat
  lock_failed : Nat
  proc_errors : Nat

/-- Whether the Redis key `lock:job:<id>` still exists at time `now`:
Redis keys with an expiry vanish once the expiry time is reached. -/
def lockHeld (locks : String → Option ℚ) (id : String) (now : ℚ) : Bool :=
  match locks id with
  | some e => decide (now < e)
  | none => false

/-- The processor's lock acquisition, `r.set("lock:job:" id, "proc", nx, ex=30)`:
succeeds (and installs a 30-second expiry) exactly when the key is currently
absent; returns the SET NX outcome and the resulting lock key space. -/
def acquireLock (locks : String → Option ℚ) (id : String) (now : ℚ) :
    Bool × (String → Option ℚ) :=
  if lockHeld locks id now then (false, locks)
  else (true, upd locks id (now + 30))

/-- Outcome of the opaque PIL image transform: the bytes are not an image
(UnidentifiedImageError/OSError on open), the convert/resize/save step fails,
or it succeeds producing PNG bytes. -/
inductive ImgResult
  | notImage
  | procFail
  | ok (png : List Nat)
  deriving DecidableEq, Repr

/-- Outcome of the HTTP POST of the processed result to the aggregator. -/
inductive SendOutcome
  | ok (statusCode : Nat)
  | connError
  | timeout
  | reqError
  deriving DecidableEq, Repr

/-- Responses of the /process endpoint (reason codes of processor main.py). -/
inductive ProcResp
  | missingFields
  | alreadyProcessing
  | invalidImageB64
  | emptyImagePayload
  | payloadTooLarge
  | invalidImageData
  | processingError
  | aggregatorUnreachable
  | aggregatorTimeout
  | aggregatorError
  | sentToAggregator (bytes : Nat)
  deriving DecidableEq, Repr

/-- HTTP status code attached to each /process response in the source. -/
def ProcResp.httpStatus : ProcResp → Nat
  | ProcResp.missingFields => 400
  | ProcResp.alreadyProcessing => 409
  | ProcResp.invalidImageB64 => 400
  | ProcResp.emptyImagePayload => 400
  | ProcResp.payloadTooLarge => 413
  | ProcResp.invalidImageData => 400
  | ProcResp.processingError => 500
  | ProcResp.aggregatorUnreachable => 503
  | ProcResp.aggregatorTimeout => 504
  | ProcResp.aggregatorError => 502
  | ProcResp.sentToAggregator _ => 200

/-- Body of the /process handler after the lock has been acquired (the `try`
block of the source): best-effort `processing` status write, base64 decode,
emptiness and size validation, opaque image transform, `processed` status
write, HTTP hop to the aggregator.  A non-5xx aggregator reply (and even a
5xx reply, which is only counted) still yields `sent_to_aggregator`;
transport-level failures yield the distinct 502/503/504 reason codes. -/
def processBody (decode : String → Option (List Nat))
    (transform : List Nat → ImgResult) (maxInputBytes : Nat)
    (send : SendOutcome) (now : ℚ) (job_id image_b64 : String)
    (s : ProcState) : ProcResp × ProcState :=
  let s1 : ProcState :=
    { s with jobs := hsetJob s.jobs job_id (fun j => { j with status := some "processing" }) }
  match decode image_b64 with
  | none => (ProcResp.invalidImageB64, { s1 with proc_errors := s1.proc_errors + 1 })
  | some bytes =>
    if bytes.length = 0 then
      (ProcResp.emptyImagePayload, { s1 with proc_errors := s1.proc_errors + 1 })
    else if maxInputBytes < bytes.length then
      (ProcResp.payloadTooLarge, { s1 with proc_errors := s1.proc_errors + 1 })
    else
      match transform bytes with
      | ImgResult.notImage =>
        (ProcResp.invalidImageData, { s1 with proc_errors := s1.proc_errors + 1 })
      | ImgResult.procFail =>
        (ProcResp.processingError, { s1 with proc_errors := s1.proc_errors + 1 })
      | ImgResult.ok png =>
        let s2 : ProcState :=
          { s1 with jobs := hsetJob s1.jobs job_id (fun j =>
              { j with status := some "processed", processed_at := some now }) }
        match send with
        | SendOutcome.connError =>
          (ProcResp.aggregatorUnreachable, { s2 with proc_errors := s2.proc_errors + 1 })
        | SendOutcome.timeout =>
          (ProcResp.aggregatorTimeout, { s2 with proc_errors := s2.proc_errors + 1 })
        | SendOutcome.reqError =>
          (ProcResp.aggregatorError, { s2 with proc_errors := s2.proc_errors + 1 })
        | SendOutcome.ok code =>
          if 500 ≤ code then
            (ProcResp.sentToAggregator png.length,
              { s2 with proc_errors := s2.proc_errors + 1 })
          else (ProcResp.sentToAggregator png.length, s2)

/-- The /process handler of processor main.py, from the point where the JSON
body has been parsed into `job_id` and `image_b64` (an absent field is the
empty string).  Missing-field check, SET NX lock acquisition (409 with no
other state change when it fails), then the body; the `finally` block deletes
the lock key on every path that runs the body. -/
def process (decode : String → Option (List Nat))
    (transform : List Nat → ImgResult) (maxInputBytes : Nat)
    (send : SendOutcome) (now : ℚ) (job_id image_b64 : String)
    (s : ProcState) : ProcResp × ProcState :=
  if job_id = "" ∨ image_b64 = "" then
    (ProcResp.missingFields, { s with proc_errors := s.proc_errors + 1 })
  else
    let a := acquireLock s.locks job_id now
    if a.1 then
      let sL : ProcState := { s with locks := a.2, lock_acquired := s.lock_acquired + 1 }
      let res := processBody decode transform maxInputBytes send now job_id image_b64 sL
      (res.1, { res.2 with locks := delKey res.2.locks job_id })
    else
      (ProcResp.alreadyProcessing, { s with lock_failed := s.lock_failed + 1 })

/-! ## Worker (redis-app/worker/main.py) -/

/-- State visible to the worker's completed-future drain: job hashes, the
in-flight gauge and the processed counter. -/
structure WorkerState where
  jobs : String → Option Job
  in_flight : Int
  processed : Nat

/-- Result of `fut.result()` for one pooled work item: either the dict the
work function returned, or the exception it raised. -/
inductive FutResult
  | ok (result : String) (processing_time : ℚ)
  | exc (msg : String)
  deriving DecidableEq, Repr

/-- One iteration of `_drain_completed_futures` for a single completed future.
On success: write `status=done`, `finished_at`, `result`, `processing_time`
to the job hash and bump the processed counter.  On an exception from the
future: write `status=failed` and `error` (the source writes no timestamp on
this path).  The `finally` block decrements the in-flight gauge in both
cases. -/
def drain_completed_futures (s : WorkerState) (job_id : String)
    (res : FutResult) (now : ℚ) : WorkerState :=
  match res with
  | FutResult.ok r pt =>
    { s with
      jobs := hsetJob s.jobs job_id (fun j =>
        { j with status := some "done", finished_at := some now,
                 result := some r, processing_time := some pt })
      processed := s.processed + 1
      in_flight := s.in_flight - 1 }
  | FutResult.exc m =>
    { s with
      jobs := hsetJob s.jobs job_id (fun j =>
        { j with status := some "failed", error := some m })
      in_flight := s.in_flight - 1 }

/-! ## Gateway (redis-app/gateway/main.py) -/

/-- State visible to the gateway: job hashes and the work queue list
(LPUSH pushes at the head; BRPOP pops from the tail). -/
structure GatewayState where
  jobs : String → Option Job
  queue : List String

/-- Redis commands issued by the gateway on its single connection, in
issue order. -/
inductive RedisCmd
  | hsetCmd (key : String)
  | lpushCmd (key : String) (value : String)
  deriving DecidableEq, Repr

/-- The POST /jobs handler of gateway main.py with the generated uuid4 id
passed in as `job_id`: builds the job hash with `status=pending`,
`created_at=now` and the payload, issues HSET then LPUSH on the same
connection (the returned trace lists them in issue order), and returns the
id. -/
def create_job (queueKey : String) (s : GatewayState) (job_id : String)
    (now : ℚ) (payload : String) : String × GatewayState × List RedisCmd :=
  let job : Job :=
    { id := some job_id, status := some "pending", created_at := some now,
      payload := some payload }
  (job_id,
   { jobs := upd s.jobs job_id job, queue := job_id :: s.queue },
   [RedisCmd.hsetCmd ("job:" ++ job_id), RedisCmd.lpushCmd queueKey job_id])

/-! ## Summarizer (redis-app/summarizer/main.py) -/

/-- The walk of `histogram_percentile`: cumulative count accumulator, return
the bound of the first bucket whose accumulated count reaches the target;
`none` when the loop falls through without reaching it. -/
def hpLoop (target : ℚ) : ℚ → List (ℚ × ℚ) → Option ℚ
  | _, [] => none
  | cum, b :: rest =>
    if target ≤ cum + b.2 then some b.1 else hpLoop target (cum + b.2) rest

/-- `histogram_percentile(buckets, count, q)` of summarizer main.py:
0 when the total count is 0; otherwise walk the buckets accumulating counts
and return the bound of the first bucket whose accumulated count is at least
`q * count`; fallback to the last bucket bound (or 0 for no buckets) when the
walk falls through. -/
def histogram_percentile (buckets : List (ℚ × ℚ)) (count : ℚ) (q : ℚ) : ℚ :=
  if count = 0 then 0
  else
    match hpLoop (q * count) 0 buckets with
    | some le => le
    | none =>
      match buckets.getLast? with
      | some b => b.1
      | none => 0

/-- Cumulative count of the buckets up to and including index `i`, as the
walk of `histogram_percentile` accumulates it. -/
def hpCum (buckets : List (ℚ × ℚ)) (i : ℕ) : ℚ :=
  ((buckets.take (i + 1)).map Prod.snd).sum

/-- Poller state of the summarizer (`_state` in the source): the last
observed counter values and the last poll wall time. -/
structure SummState where
  last_enqueued : Option ℚ := none
  last_processed : Option ℚ := none
  last_poll_time : Option ℚ := none
  deriving DecidableEq, Repr

/-- The pair of rates one poll publishes to the rate gauges. -/
structure PollRates where
  enq_rate : ℚ
  proc_rate : ℚ
  deriving DecidableEq, Repr

/-- The rate-computation core of `poll_and_update` in summarizer main.py,
given the current wall time and the two counter values scraped from the
backend: deltas against the stored baselines clamped at zero (`none`
baseline on the first poll gives delta 0), rates `delta / interval` only
when a previous poll time exists and the interval is positive, and the new
baseline state. -/
def poll_and_update (st : SummState) (now enqueued processed : ℚ) :
    PollRates × SummState :=
  let delta_enq : ℚ :=
    match st.last_enqueued with
    | none => 0
    | some last => max 0 (enqueued - last)
  let delta_proc : ℚ :=
    match st.last_processed with
    | none => 0
    | some last => max 0 (processed - last)
  let rates : PollRates :=
    match st.last_poll_time with
    | none => { enq_rate := 0, proc_rate := 0 }
    | some t =>
      if 0 < now - t then
        { enq_rate := delta_enq / (now - t), proc_rate := delta_proc / (now - t) }
      else { enq_rate := 0, proc_rate := 0 }
  (rates,
   { last_enqueued := some enqueued, last_processed := some processed,
     last_poll_time := some now })

/-! ## Theorems -/

/-- C1: for every job id whose stored status is already `finished`, a finalize
call with the same valid payload returns `already_finished` and increments the
duplicate counter, and the resulting state differs from the incoming one only
in that counter: the job hashes (hence `finished_at`, `result_path` and
`status`), the persisted artifacts and the notifications are all unchanged,
so no re-write happens and no second artifact is persisted for the id. -/
theorem finalize_duplicate_idempotent (decode : String → Option (List Nat))
    (maxResultBytes : Nat) (jobsDir : String) (now : ℚ)
    (job_id processed_b64 : String) (s : AggState)
    (h1 : job_id ≠ "") (h2 : processed_b64 ≠ "")
    (h3 : (s.jobs job_id).bind Job.status = some "finished") :
    finalize decode maxResultBytes jobsDir now job_id processed_b64 s
      = (AggResp.alreadyFinished, { s with duplicates := s.duplicates + 1 }) := by
  simp [finalize, h1, h2, h3]

/-- Concrete aggregator state with job `j1` already finished, used to witness
the duplicate-finalization theorems. -/
def aggStateDup : AggState :=
  { jobs := upd (fun _ => none) "j1"
      { id := some "j1", status := some "finished",
        result_path := some "jobs/j1.png", finished_at := some 3 }
    artifacts := upd (fun _ => none) "j1" [7, 7]
    notifications := ["j1"]
    duplicates := 0
    finalize_errors := 0
    finalize_total := 1 }

/-- Witness for the duplicate-finalization theorem at a concrete finished
job, with every hypothesis discharged concretely. -/
theorem finalize_duplicate_idempotent_witness :
    finalize (fun _ => none) 50 "jobs" 7 "j1" "abc" aggStateDup
      = (AggResp.alreadyFinished, { aggStateDup with duplicates := aggStateDup.duplicates + 1 }) :=
  finalize_duplicate_idempotent (fun _ => none) 50 "jobs" 7 "j1" "abc" aggStateDup
    (by decide) (by decide) (by simp [aggStateDup, upd])

/-- C9: in the aggregator the duplicate-finalization check runs before payload
decoding and validation: for a job whose stored status is `finished`, a
finalize request with any non-empty `processed_b64` — the base64 decoder and
the size ceiling are universally quantified, so invalid base64 and payloads
over the ceiling are covered — returns `already_finished` with HTTP 200. -/
theorem finalize_duplicate_check_first (decode : String → Option (List Nat))
    (maxResultBytes : Nat) (jobsDir : String) (now : ℚ)
    (job_id processed_b64 : String) (s : AggState)
    (h1 : job_id ≠ "") (h2 : processed_b64 ≠ "")
    (h3 : (s.jobs job_id).bind Job.status = some "finished") :
    (finalize decode maxResultBytes jobsDir now job_id processed_b64 s).1
      = AggResp.alreadyFinished
    ∧ AggResp.httpStatus
        (finalize decode maxResultBytes jobsDir now job_id processed_b64 s).1 = 200 := by
  simp [finalize, h1, h2, h3, AggResp.httpStatus]

/-- Witness for the duplicate-check-first theorem: an always-failing decoder
and a size ceiling of 0 (so the payload would be rejected if it were ever
examined) still produce `already_finished`, HTTP 200. -/
theorem finalize_duplicate_check_first_witness :
    (finalize (fun _ => none) 0 "jobs" 7 "j1" "%%not-base64%%" aggStateDup).1
      = AggResp.alreadyFinished
    ∧ AggResp.httpStatus
        (finalize (fun _ => none) 0 "jobs" 7 "j1" "%%not-base64%%" aggStateDup).1 = 200 :=
  finalize_duplicate_check_first (fun _ => none) 0 "jobs" 7 "j1" "%%not-base64%%"
    aggStateDup (by decide) (by decide) (by simp [aggStateDup, upd])

/-- C2: a /process claim attempt while the lock key is already live returns
`already_processing` (whose HTTP status is 409) and changes nothing but the
lock-failed counter (in particular no Job field and no lock); of two claim
attempts on the same id, the first on a free lock acquires it and a second
issued within the 30-second TTL fails; once the TTL has elapsed with no
release, a new claim attempt succeeds again. -/
theorem process_claim_protocol :
    (∀ (decode : String → Option (List Nat)) (transform : List Nat → ImgResult)
       (maxInputBytes : Nat) (send : SendOutcome) (now : ℚ)
       (job_id image_b64 : String) (s : ProcState),
       job_id ≠ "" → image_b64 ≠ "" → lockHeld s.locks job_id now = true →
       process decode transform maxInputBytes send now job_id image_b64 s
         = (ProcResp.alreadyProcessing, { s with lock_failed := s.lock_failed + 1 })
       ∧ ProcResp.httpStatus ProcResp.alreadyProcessing = 409)
    ∧ (∀ (locks : String → Option ℚ) (id : String) (t1 t2 : ℚ),
       lockHeld locks id t1 = false → t2 < t1 + 30 →
       (acquireLock locks id t1).1 = true
       ∧ (acquireLock (acquireLock locks id t1).2 id t2).1 = false)
    ∧ (∀ (locks : String → Option ℚ) (id : String) (t1 t2 : ℚ),
       lockHeld locks id t1 = false → t1 + 30 ≤ t2 →
       (acquireLock (acquireLock locks id t1).2 id t2).1 = true) := by
  refine ⟨?_, ?_, ?_⟩
  · intro decode transform maxInputBytes send now job_id image_b64 s h1 h2 h3
    exact ⟨by simp [process, acquireLock, h1, h2, h3], rfl⟩
  · intro locks id t1 t2 h1 h2
    have ha : acquireLock locks id t1 = (true, upd locks id (t1 + 30)) := by
      simp [acquireLock, h1]
    constructor
    · rw [ha]
    · rw [ha]
      simp [acquireLock, lockHeld, upd, h2]
  · intro locks id t1 t2 h1 h2
    have ha : acquireLock locks id t1 = (true, upd locks id (t1 + 30)) := by
      simp [acquireLock, h1]
    rw [ha]
    simp [acquireLock, lockHeld, upd, not_lt.mpr h2]

/-- Concrete processor state whose lock key for `j1` is live until time 30. -/
def procStateLocked : ProcState :=
  { jobs := upd (fun _ => none) "j1" { id := some "j1", status := some "queued" }
    locks := upd (fun _ => none) "j1" 30
    lock_acquired := 0
    lock_failed := 0
    proc_errors := 0 }

/-- Witness for the claim protocol: at time 0 the held lock rejects a second
/process call with 409 and no other change; a fresh lock is acquired at time
0, re-claim at time 10 fails, re-claim at time 40 (past the 30s TTL)
succeeds. -/
theorem process_claim_protocol_witness :
    (process (fun _ => none) (fun _ => ImgResult.notImage) 10 (SendOutcome.ok 200) 0
        "j1" "img" procStateLocked
      = (ProcResp.alreadyProcessing,
         { procStateLocked with lock_failed := procStateLocked.lock_failed + 1 })
     ∧ ProcResp.httpStatus ProcResp.alreadyProcessing = 409)
    ∧ ((acquireLock (fun _ => none) "j1" 0).1 = true
       ∧ (acquireLock (acquireLock (fun _ => none) "j1" 0).2 "j1" 10).1 = false)
    ∧ (acquireLock (acquireLock (fun _ => none) "j1" 0).2 "j1" 40).1 = true :=
  ⟨process_claim_protocol.1 (fun _ => none) (fun _ => ImgResult.notImage) 10
      (SendOutcome.ok 200) 0 "j1" "img" procStateLocked (by decide) (by decide)
      (by norm_num [lockHeld, procStateLocked, upd]),
   process_claim_protocol.2.1 (fun _ => none) "j1" 0 10 rfl (by norm_num),
   process_claim_protocol.2.2 (fun _ => none) "j1" 0 40 rfl (by norm_num)⟩

/-- C4: every /process request that acquires the per-job lock has the lock key
deleted by the guaranteed-cleanup block before the response is returned —
the base64 decoder, image transform and aggregator hop are universally
quantified, so success, validation rejection, processing error and
downstream-unreachable paths are all covered — leaving the lock absent in
the final state. -/
theorem process_releases_lock (decode : String → Option (List Nat))
    (transform : List Nat → ImgResult) (maxInputBytes : Nat)
    (send : SendOutcome) (now : ℚ) (job_id image_b64 : String) (s : ProcState)
    (h1 : job_id ≠ "") (h2 : image_b64 ≠ "")
    (h3 : lockHeld s.locks job_id now = false) :
    (process decode transform maxInputBytes send now job_id image_b64 s).2.locks job_id
      = none := by
  simp [process, acquireLock, h1, h2, h3, delKey]

/-- Concrete lock-free processor state used to witness the release theorem. -/
def procStateFree : ProcState :=
  { jobs := upd (fun _ => none) "j1" { id := some "j1", status := some "queued" }
    locks := fun _ => none
    lock_acquired := 0
    lock_failed := 0
    proc_errors := 0 }

/-- Witness for the lock-release theorem at a concrete request that takes the
validation-rejection path (the decoder fails), with every hypothesis
discharged concretely. -/
theorem process_releases_lock_witness :
    (process (fun _ => none) (fun _ => ImgResult.notImage) 10 (SendOutcome.ok 200) 0
        "j1" "img" procStateFree).2.locks "j1" = none :=
  process_releases_lock (fun _ => none) (fun _ => ImgResult.notImage) 10
    (SendOutcome.ok 200) 0 "j1" "img" procStateFree (by decide) (by decide) rfl

/-- Concrete job in flight (created at 1, started at 2, status processing),
used to exercise the worker's completed-future drain. -/
def jobDrain : Job :=
  { id := some "j1", status := some "processing", created_at := some 1,
    started_at := some 2 }

/-- Concrete worker state tracking `jobDrain` with one job in flight. -/
def wsDrain : WorkerState :=
  { jobs := upd (fun _ => none) "j1" jobDrain, in_flight := 1, processed := 0 }

/-- C3 counterexample: when the future for job `j1` raises, the drain writes
`status=failed` with the error string and decrements the in-flight gauge,
but it records no timestamp: `finished_at` stays unset and every timestamp
field of the job hash (`created_at`, `started_at`, `processed_at`,
`finished_at`) is exactly what it was before the transition.  This refutes
the claim that the failure transition records a timestamp. -/
theorem drain_failure_records_no_timestamp :
    (((drain_completed_futures wsDrain "j1" (FutResult.exc "boom") 100).jobs "j1").bind
        Job.status = some "failed")
    ∧ (((drain_completed_futures wsDrain "j1" (FutResult.exc "boom") 100).jobs "j1").bind
        Job.error = some "boom")
    ∧ (drain_completed_futures wsDrain "j1" (FutResult.exc "boom") 100).in_flight
        = wsDrain.in_flight - 1
    ∧ ¬ (((drain_completed_futures wsDrain "j1" (FutResult.exc "boom") 100).jobs "j1").bind
          Job.finished_at ≠ (wsDrain.jobs "j1").bind Job.finished_at
        ∨ ((drain_completed_futures wsDrain "j1" (FutResult.exc "boom") 100).jobs "j1").bind
          Job.created_at ≠ (wsDrain.jobs "j1").bind Job.created_at
        ∨ ((drain_completed_futures wsDrain "j1" (FutResult.exc "boom") 100).jobs "j1").bind
          Job.started_at ≠ (wsDrain.jobs "j1").bind Job.started_at
        ∨ ((drain_completed_futures wsDrain "j1" (FutResult.exc "boom") 100).jobs "j1").bind
          Job.processed_at ≠ (wsDrain.jobs "j1").bind Job.processed_at)
    ∧ ((drain_completed_futures wsDrain "j1" (FutResult.exc "boom") 100).jobs "j1").bind
        Job.finished_at = none := by
  refine ⟨?_, ?_, rfl, ?_, ?_⟩ <;>
    simp [drain_completed_futures, wsDrain, jobDrain, hsetJob, upd]

/-- C3 amended: for every job whose work function raises, the worker
transitions the Job record to `failed` with a human-readable `error` string
(but no timestamp) and decrements the in-flight gauge; the gauge decrement is
unconditional — it happens on the success path and on the exception path
alike. -/
theorem drain_failure_cleanup (s : WorkerState) (job_id msg : String) (now : ℚ) :
    (((drain_completed_futures s job_id (FutResult.exc msg) now).jobs job_id).bind
        Job.status = some "failed")
    ∧ (((drain_completed_futures s job_id (FutResult.exc msg) now).jobs job_id).bind
        Job.error = some msg)
    ∧ (drain_completed_futures s job_id (FutResult.exc msg) now).in_flight
        = s.in_flight - 1
    ∧ (∀ res : FutResult,
        (drain_completed_futures s job_id res now).in_flight = s.in_flight - 1) := by
  refine ⟨?_, ?_, rfl, ?_⟩
  · simp [drain_completed_futures, hsetJob, upd]
  · simp [drain_completed_futures, hsetJob, upd]
  · intro res
    cases res <;> rfl

/-- C8: the gateway's submit operation, given a generated id that is fresh
(no job hash exists for it, the uuid4 collision-freeness assumption), writes
a new Job hash with `status=pending`, `created_at` and the payload, leaves
every other job hash untouched, pushes the id onto the head of the queue,
returns the id, and issues its two Redis commands on the same connection with
the HSET strictly before the LPUSH in the command trace. -/
theorem create_job_spec (queueKey : String) (s : GatewayState) (job_id : String)
    (now : ℚ) (payload : String) (hfresh : s.jobs job_id = none) :
    (create_job queueKey s job_id now payload).1 = job_id
    ∧ (create_job queueKey s job_id now payload).2.1.jobs job_id
        = some { id := some job_id, status := some "pending",
                 created_at := some now, payload := some payload }
    ∧ s.jobs job_id = none
    ∧ (∀ j, j ≠ job_id →
        (create_job queueKey s job_id now payload).2.1.jobs j = s.jobs j)
    ∧ (create_job queueKey s job_id now payload).2.1.queue = job_id :: s.queue
    ∧ (create_job queueKey s job_id now payload).2.2
        = [RedisCmd.hsetCmd ("job:" ++ job_id), RedisCmd.lpushCmd queueKey job_id] := by
  refine ⟨rfl, ?_, hfresh, ?_, rfl, rfl⟩
  · simp [create_job, upd]
  · intro j hj
    simp [create_job, upd, hj]

/-- Witness for the gateway submit theorem at a concrete fresh id. -/
theorem create_job_spec_witness :
    (create_job "jobs_queue" { jobs := fun _ => none, queue := ["old"] } "abc" 5 "p").1
      = "abc"
    ∧ (create_job "jobs_queue" { jobs := fun _ => none, queue := ["old"] } "abc" 5 "p").2.1.jobs
        "abc"
      = some { id := some "abc", status := some "pending",
               created_at := some 5, payload := some "p" }
    ∧ ({ jobs := fun _ => none, queue := ["old"] } : GatewayState).jobs "abc" = none
    ∧ (∀ j, j ≠ "abc" →
        (create_job "jobs_queue" { jobs := fun _ => none, queue := ["old"] } "abc" 5 "p").2.1.jobs j
          = ({ jobs := fun _ => none, queue := ["old"] } : GatewayState).jobs j)
    ∧ (create_job "jobs_queue" { jobs := fun _ => none, queue := ["old"] } "abc" 5 "p").2.1.queue
        = "abc" :: ["old"]
    ∧ (create_job "jobs_queue" { jobs := fun _ => none, queue := ["old"] } "abc" 5 "p").2.2
        = [RedisCmd.hsetCmd "job:abc", RedisCmd.lpushCmd "jobs_queue" "abc"] :=
  create_job_spec "jobs_queue" { jobs := fun _ => none, queue := ["old"] } "abc" 5 "p" rfl

/-- Cumulative count of a cons cell, first bucket only. -/
theorem hpCum_zero (b : ℚ × ℚ) (rest : List (ℚ × ℚ)) : hpCum (b :: rest) 0 = b.2 := by
  simp [hpCum]

/-- Cumulative count of a cons cell at a successor index splits off the head
bucket count. -/
theorem hpCum_succ (b : ℚ × ℚ) (rest : List (ℚ × ℚ)) (k : ℕ) :
    hpCum (b :: rest) (k + 1) = b.2 + hpCum rest k := by
  simp [hpCum, List.take_succ_cons]

/-- The walk of `histogram_percentile` returns the bound of the first bucket
whose accumulated count reaches the target. -/
theorem hpLoop_first (target : ℚ) (bs : List (ℚ × ℚ)) :
    ∀ (cum : ℚ) (i : ℕ) (hi : i < bs.length),
      target ≤ cum + hpCum bs i →
      (∀ j, j < i → cum + hpCum bs j < target) →
      hpLoop target cum bs = some (bs.get ⟨i, hi⟩).1 := by
  induction bs with
  | nil =>
    intro cum i hi
    simp at hi
  | cons b rest ih =>
    intro cum i hi hreach hmin
    cases i with
    | zero =>
      rw [hpCum_zero] at hreach
      simp [hpLoop, hreach]
    | succ i =>
      have h0 : cum + b.2 < target := by
        have h := hmin 0 (Nat.succ_pos i)
        rwa [hpCum_zero] at h
      have hi' : i < rest.length := Nat.lt_of_succ_lt_succ (by simpa using hi)
      have hrec : hpLoop target (cum + b.2) rest = some (rest.get ⟨i, hi'⟩).1 := by
        apply ih
        · rw [hpCum_succ] at hreach
          linarith
        · intro j hj
          have h := hmin (j + 1) (Nat.succ_lt_succ hj)
          rw [hpCum_succ] at h
          linarith
      simp [hpLoop, not_le.mpr h0, hrec]

/-- C5: `histogram_percentile` returns 0 when the total count is 0; otherwise
it walks the buckets in the order given (ascending bound order as the caller
sorts them), accumulates counts, and returns the bound of the first bucket
whose accumulated count reaches `q * count` — the first-index condition
makes ties favor the smaller bound; and on the buckets (1,5), (5,8), (10,10)
with total count 10 the 50th percentile is 1. -/
theorem histogram_percentile_spec :
    (∀ (bs : List (ℚ × ℚ)) (q : ℚ), histogram_percentile bs 0 q = 0)
    ∧ (∀ (bs : List (ℚ × ℚ)) (c q : ℚ) (i : ℕ) (hi : i < bs.length),
        c ≠ 0 → q * c ≤ hpCum bs i → (∀ j, j < i → hpCum bs j < q * c) →
        histogram_percentile bs c q = (bs.get ⟨i, hi⟩).1)
    ∧ histogram_percentile [(1, 5), (5, 8), (10, 10)] 10 (1 / 2) = 1 := by
  refine ⟨?_, ?_, ?_⟩
  · intro bs q
    simp [histogram_percentile]
  · intro bs c q i hi hc hreach hmin
    have h := hpLoop_first (q * c) bs 0 i hi (by simpa using hreach)
      (fun j hj => by simpa using hmin j hj)
    simp [histogram_percentile, hc, h]
  · norm_num [histogram_percentile, hpLoop]

/-- Witness for the percentile theorem: the first-bucket clause applied at the
concrete snapshot of the spec's test (index 0 is the first bucket whose
accumulated count 5 reaches the target 0.5 * 10 = 5), and the zero-count
clause at a concrete snapshot. -/
theorem histogram_percentile_spec_witness :
    histogram_percentile [(1, 5), (5, 8), (10, 10)] 10 (1 / 2) = 1
    ∧ histogram_percentile [(2, 4)] 0 (3 / 4) = 0 := by
  constructor
  · have h := histogram_percentile_spec.2.1 [(1, 5), (5, 8), (10, 10)] 10 (1 / 2) 0
      (by norm_num) (by norm_num) (by norm_num [hpCum])
      (fun j hj => absurd hj (Nat.not_lt_zero j))
    simpa using h
  · exact histogram_percentile_spec.1 [(2, 4)] (3 / 4)

/-- C6: on the very first poll (no stored poll time) both published rates are
0; on every subsequent poll with positive elapsed wall time the rates equal
the counter delta divided by the elapsed time between the two polls, the
delta clamped at zero when the observed counter decreased; and each poll
stores the observed counters and wall time as the next baseline. -/
theorem poll_rate_computation :
    (∀ (st : SummState) (now e p : ℚ), st.last_poll_time = none →
        (poll_and_update st now e p).1 = { enq_rate := 0, proc_rate := 0 })
    ∧ (∀ (st : SummState) (t le lp now e p : ℚ),
        st.last_poll_time = some t → st.last_enqueued = some le →
        st.last_processed = some lp → t < now →
        (poll_and_update st now e p).1
          = { enq_rate := max 0 (e - le) / (now - t),
              proc_rate := max 0 (p - lp) / (now - t) })
    ∧ (∀ (st : SummState) (now e p : ℚ),
        (poll_and_update st now e p).2
          = { last_enqueued := some e, last_processed := some p,
              last_poll_time := some now }) := by
  refine ⟨?_, ?_, ?_⟩
  · intro st now e p h
    simp [poll_and_update, h]
  · intro st t le lp now e p h1 h2 h3 h4
    simp [poll_and_update, h1, h2, h3, sub_pos.mpr h4]
  · intro st now e p
    rfl

/-- Witness for the rate theorem: a first poll from the empty baseline gives
rates 0; a second poll 10 seconds later, with the enqueued counter up by 7
and the processed counter reset downward, gives enqueue rate 7/10 and a
clamped process rate 0. -/
theorem poll_rate_computation_witness :
    (poll_and_update {} 100 50 40).1 = { enq_rate := 0, proc_rate := 0 }
    ∧ (poll_and_update (poll_and_update {} 100 50 40).2 110 57 3).1
        = { enq_rate := max 0 (57 - 50) / (110 - 100),
            proc_rate := max 0 (3 - 40) / (110 - 100) } :=
  ⟨poll_rate_computation.1 {} 100 50 40 rfl,
   poll_rate_computation.2.1 (poll_and_update {} 100 50 40).2
     100 50 40 110 57 3 rfl rfl rfl (by norm_num)⟩

/-- C7: payload boundary validation of both entry points.  Processor /process
(after the lock is acquired): a decoded payload of exactly the configured
maximum size passes the size validation (the response is never the empty- or
too-large rejection), one byte over is rejected with `payload_too_large`
(HTTP 413), and an empty decoded payload is rejected with
`empty_image_payload` (HTTP 400).  Aggregator /finalize (for a job not yet
finished): exactly the maximum size is accepted and finalizes with HTTP 200,
one byte over is rejected with `payload_too_large` (HTTP 413), and an empty
decoded payload is rejected with `empty_processed_payload` (HTTP 400). -/
theorem payload_boundary_validation :
    (∀ (decode : String → Option (List Nat)) (transform : List Nat → ImgResult)
       (maxInputBytes : Nat) (send : SendOutcome) (now : ℚ)
       (job_id image_b64 : String) (s : ProcState) (bytes : List Nat),
       job_id ≠ "" → image_b64 ≠ "" → lockHeld s.locks job_id now = false →
       decode image_b64 = some bytes →
       (bytes.length = 0 →
         (process decode transform maxInputBytes send now job_id image_b64 s).1
           = ProcResp.emptyImagePayload
         ∧ ProcResp.httpStatus ProcResp.emptyImagePayload = 400)
       ∧ (bytes.length = maxInputBytes + 1 →
         (process decode transform maxInputBytes send now job_id image_b64 s).1
           = ProcResp.payloadTooLarge
         ∧ ProcResp.httpStatus ProcResp.payloadTooLarge = 413)
       ∧ (0 < maxInputBytes → bytes.length = maxInputBytes →
         (process decode transform maxInputBytes send now job_id image_b64 s).1
           ≠ ProcResp.emptyImagePayload
         ∧ (process decode transform maxInputBytes send now job_id image_b64 s).1
           ≠ ProcResp.payloadTooLarge))
    ∧ (∀ (decode : String → Option (List Nat)) (maxResultBytes : Nat)
       (jobsDir : String) (now : ℚ) (job_id processed_b64 : String)
       (s : AggState) (bytes : List Nat),
       job_id ≠ "" → processed_b64 ≠ "" →
       ¬ (s.jobs job_id).bind Job.status = some "finished" →
       decode processed_b64 = some bytes →
       (bytes.length = 0 →
         (finalize decode maxResultBytes jobsDir now job_id processed_b64 s).1
           = AggResp.emptyProcessedPayload
         ∧ AggResp.httpStatus AggResp.emptyProcessedPayload = 400)
       ∧ (bytes.length = maxResultBytes + 1 →
         (finalize decode maxResultBytes jobsDir now job_id processed_b64 s).1
           = AggResp.payloadTooLarge
         ∧ AggResp.httpStatus AggResp.payloadTooLarge = 413)
       ∧ (0 < maxResultBytes → bytes.length = maxResultBytes →
         (finalize decode maxResultBytes jobsDir now job_id processed_b64 s).1
           = AggResp.finished (jobsDir ++ "/" ++ job_id ++ ".png") maxResultBytes
         ∧ AggResp.httpStatus
             (finalize decode maxResultBytes jobsDir now job_id processed_b64 s).1
           = 200)) := by
  constructor
  · intro decode transform maxInputBytes send now job_id image_b64 s bytes h1 h2 h3 hd
    refine ⟨?_, ?_, ?_⟩
    · intro hz
      exact ⟨by simp [process, processBody, acquireLock, h1, h2, h3, hd, hz], rfl⟩
    · intro hlen
      exact ⟨by simp [process, processBody, acquireLock, h1, h2, h3, hd, hlen], rfl⟩
    · intro hpos hlen
      have hz : ¬ bytes.length = 0 := by omega
      have hlt : ¬ maxInputBytes < bytes.length := by omega
      have hbody : (process decode transform maxInputBytes send now job_id image_b64 s).1
          = (processBody decode transform maxInputBytes send now job_id image_b64
              { s with locks := upd s.locks job_id (now + 30),
                       lock_acquired := s.lock_acquired + 1 }).1 := by
        simp [process, acquireLock, h1, h2, h3]
      rw [hbody]
      constructor <;>
      · simp only [processBody, hd]
        rw [if_neg hz, if_neg hlt]
        cases ht : transform bytes
        case notImage => simp
        case procFail => simp
        case ok png =>
          cases send
          case connError => simp
          case timeout => simp
          case reqError => simp
          case ok code =>
            by_cases hc : 500 ≤ code <;> simp [hc]
  · intro decode maxResultBytes jobsDir now job_id processed_b64 s bytes h1 h2 h3 hd
    refine ⟨?_, ?_, ?_⟩
    · intro hz
      exact ⟨by simp [finalize, h1, h2, h3, hd, hz], rfl⟩
    · intro hlen
      exact ⟨by simp [finalize, h1, h2, h3, hd, hlen], rfl⟩
    · intro hpos hlen
      have hne : ¬ maxResultBytes = 0 := by omega
      have hirr : ¬ maxResultBytes < maxResultBytes := by omega
      have hres : (finalize decode maxResultBytes jobsDir now job_id processed_b64 s).1
          = AggResp.finished (jobsDir ++ "/" ++ job_id ++ ".png") maxResultBytes := by
        simp [finalize, h1, h2, h3, hd, hlen, hne, hirr]
      exact ⟨hres, by rw [hres]; rfl⟩

/-- Concrete aggregator state with no job hashes, artifacts or notifications. -/
def aggStateFresh : AggState :=
  { jobs := fun _ => none
    artifacts := fun _ => none
    notifications := []
    duplicates := 0
    finalize_errors := 0
    finalize_total := 0 }

/-- Witness for the boundary-validation theorem with size ceiling 5 on both
services: a 6-byte decoded payload is rejected `payload_too_large`, an empty
one `empty_image_payload` / `empty_processed_payload`, and a 5-byte one
passes (the aggregator finalizes it). -/
theorem payload_boundary_validation_witness :
    (process (fun _ => some []) (fun _ => ImgResult.ok [1]) 5 (SendOutcome.ok 200) 0
        "j1" "img" procStateFree).1 = ProcResp.emptyImagePayload
    ∧ (process (fun _ => some [0, 0, 0, 0, 0, 0]) (fun _ => ImgResult.ok [1]) 5
        (SendOutcome.ok 200) 0 "j1" "img" procStateFree).1 = ProcResp.payloadTooLarge
    ∧ ((process (fun _ => some [0, 0, 0, 0, 0]) (fun _ => ImgResult.ok [1]) 5
        (SendOutcome.ok 200) 0 "j1" "img" procStateFree).1 ≠ ProcResp.emptyImagePayload
      ∧ (process (fun _ => some [0, 0, 0, 0, 0]) (fun _ => ImgResult.ok [1]) 5
        (SendOutcome.ok 200) 0 "j1" "img" procStateFree).1 ≠ ProcResp.payloadTooLarge)
    ∧ (finalize (fun _ => some []) 5 "jobs" 0 "j1" "pb" aggStateFresh).1
        = AggResp.emptyProcessedPayload
    ∧ (finalize (fun _ => some [0, 0, 0, 0, 0, 0]) 5 "jobs" 0 "j1" "pb" aggStateFresh).1
        = AggResp.payloadTooLarge
    ∧ (finalize (fun _ => some [0, 0, 0, 0, 0]) 5 "jobs" 0 "j1" "pb" aggStateFresh).1
        = AggResp.finished ("jobs" ++ "/" ++ "j1" ++ ".png") 5 :=
  ⟨((payload_boundary_validation.1 (fun _ => some []) (fun _ => ImgResult.ok [1]) 5
      (SendOutcome.ok 200) 0 "j1" "img" procStateFree [] (by decide) (by decide) rfl
      rfl).1 rfl).1,
   ((payload_boundary_validation.1 (fun _ => some [0, 0, 0, 0, 0, 0])
      (fun _ => ImgResult.ok [1]) 5 (SendOutcome.ok 200) 0 "j1" "img" procStateFree
      [0, 0, 0, 0, 0, 0] (by decide) (by decide) rfl rfl).2.1 rfl).1,
   (payload_boundary_validation.1 (fun _ => some [0, 0, 0, 0, 0])
      (fun _ => ImgResult.ok [1]) 5 (SendOutcome.ok 200) 0 "j1" "img" procStateFree
      [0, 0, 0, 0, 0] (by decide) (by decide) rfl rfl).2.2 (by decide) rfl,
   ((payload_boundary_validation.2 (fun _ => some []) 5 "jobs" 0 "j1" "pb"
      aggStateFresh [] (by decide) (by decide) (by simp [aggStateFresh]) rfl).1 rfl).1,
   ((payload_boundary_validation.2 (fun _ => some [0, 0, 0, 0, 0, 0]) 5 "jobs" 0 "j1"
      "pb" aggStateFresh [0, 0, 0, 0, 0, 0] (by decide) (by decide)
      (by simp [aggStateFresh]) rfl).2.1 rfl).1,
   ((payload_boundary_validation.2 (fun _ => some [0, 0, 0, 0, 0]) 5 "jobs" 0 "j1"
      "pb" aggStateFresh [0, 0, 0, 0, 0] (by decide) (by decide)
      (by simp [aggStateFresh]) rfl).2.2 (by decide) rfl).1⟩

/-- C10: every /process request that acquires the lock writes `processing`
into the job hash before validation, and every validation failure — invalid
base64, empty payload, oversized payload, undecodable image — returns its
error with the job left in status `processing` (no rollback); moreover, on
every input whatsoever, the processor leaves the job's status either
untouched, or `processing`, or `processed` — no path writes `failed`. -/
theorem process_rejection_leaves_processing :
    (∀ (decode : String → Option (List Nat)) (transform : List Nat → ImgResult)
       (maxInputBytes : Nat) (send : SendOutcome) (now : ℚ)
       (job_id image_b64 : String) (s : ProcState),
       job_id ≠ "" → image_b64 ≠ "" → lockHeld s.locks job_id now = false →
       (decode image_b64 = none →
         (process decode transform maxInputBytes send now job_id image_b64 s).1
           = ProcResp.invalidImageB64
         ∧ (((process decode transform maxInputBytes send now job_id image_b64 s).2.jobs
              job_id).bind Job.status = some "processing"))
       ∧ (∀ bytes, decode image_b64 = some bytes → bytes.length = 0 →
         (process decode transform maxInputBytes send now job_id image_b64 s).1
           = ProcResp.emptyImagePayload
         ∧ (((process decode transform maxInputBytes send now job_id image_b64 s).2.jobs
              job_id).bind Job.status = some "processing"))
       ∧ (∀ bytes, decode image_b64 = some bytes → maxInputBytes < bytes.length →
         (process decode transform maxInputBytes send now job_id image_b64 s).1
           = ProcResp.payloadTooLarge
         ∧ (((process decode transform maxInputBytes send now job_id image_b64 s).2.jobs
              job_id).bind Job.status = some "processing"))
       ∧ (∀ bytes, decode image_b64 = some bytes → bytes.length ≠ 0 →
         bytes.length ≤ maxInputBytes → transform bytes = ImgResult.notImage →
         (process decode transform maxInputBytes send now job_id image_b64 s).1
           = ProcResp.invalidImageData
         ∧ (((process decode transform maxInputBytes send now job_id image_b64 s).2.jobs
              job_id).bind Job.status = some "processing")))
    ∧ (∀ (decode : String → Option (List Nat)) (transform : List Nat → ImgResult)
       (maxInputBytes : Nat) (send : SendOutcome) (now : ℚ)
       (job_id image_b64 : String) (s : ProcState),
       ((process decode transform maxInputBytes send now job_id image_b64 s).2.jobs
          job_id).bind Job.status = (s.jobs job_id).bind Job.status
       ∨ ((process decode transform maxInputBytes send now job_id image_b64 s).2.jobs
          job_id).bind Job.status = some "processing"
       ∨ ((process decode transform maxInputBytes send now job_id image_b64 s).2.jobs
          job_id).bind Job.status = some "processed") := by
  constructor
  · intro decode transform maxInputBytes send now job_id image_b64 s h1 h2 h3
    refine ⟨?_, ?_, ?_, ?_⟩
    · intro hd
      constructor <;>
        simp [process, processBody, acquireLock, h1, h2, h3, hd, hsetJob, upd]
    · intro bytes hd hz
      constructor <;>
        simp [process, processBody, acquireLock, h1, h2, h3, hd, hz, hsetJob, upd]
    · intro bytes hd hlt
      have hz : ¬ bytes.length = 0 := by omega
      constructor <;>
        simp [process, processBody, acquireLock, h1, h2, h3, hd, hz, hlt, hsetJob, upd]
    · intro bytes hd hz hle ht
      have hlt : ¬ maxInputBytes < bytes.length := by omega
      constructor <;>
        simp [process, processBody, acquireLock, h1, h2, h3, hd, hz, hlt, ht, hsetJob, upd]
  · intro decode transform maxInputBytes send now job_id image_b64 s
    by_cases h1 : job_id = "" ∨ image_b64 = ""
    · left
      simp [process, h1]
    · push_neg at h1
      obtain ⟨h1a, h1b⟩ := h1
      cases h3 : lockHeld s.locks job_id now with
      | true =>
        left
        simp [process, acquireLock, h1a, h1b, h3]
      | false =>
        cases hd : decode image_b64 with
        | none =>
          right; left
          simp [process, processBody, acquireLock, h1a, h1b, h3, hd, hsetJob, upd]
        | some bytes =>
          by_cases hz : bytes.length = 0
          · right; left
            simp [process, processBody, acquireLock, h1a, h1b, h3, hd, hz, hsetJob, upd]
          · by_cases hlt : maxInputBytes < bytes.length
            · right; left
              simp [process, processBody, acquireLock, h1a, h1b, h3, hd, hz, hlt,
                hsetJob, upd]
            · cases ht : transform bytes with
              | notImage =>
                right; left
                simp [process, processBody, acquireLock, h1a, h1b, h3, hd, hz, hlt, ht,
                  hsetJob, upd]
              | procFail =>
                right; left
                simp [process, processBody, acquireLock, h1a, h1b, h3, hd, hz, hlt, ht,
                  hsetJob, upd]
              | ok png =>
                right; right
                cases send with
                | connError =>
                  simp [process, processBody, acquireLock, h1a, h1b, h3, hd, hz, hlt, ht,
                    hsetJob, upd]
                | timeout =>
                  simp [process, processBody, acquireLock, h1a, h1b, h3, hd, hz, hlt, ht,
                    hsetJob, upd]
                | reqError =>
                  simp [process, processBody, acquireLock, h1a, h1b, h3, hd, hz, hlt, ht,
                    hsetJob, upd]
                | ok code =>
                  by_cases hc : 500 ≤ code <;>
                    simp [process, processBody, acquireLock, h1a, h1b, h3, hd, hz, hlt,
                      ht, hc, hsetJob, upd]

/-- Witness for the rejection-leaves-processing theorem: a failing decoder on
a lock-free state yields the invalid-base64 rejection with the job left in
status `processing`. -/
theorem process_rejection_leaves_processing_witness :
    (process (fun _ => none) (fun _ => ImgResult.notImage) 10 (SendOutcome.ok 200) 0
        "j1" "img" procStateFree).1 = ProcResp.invalidImageB64
    ∧ (((process (fun _ => none) (fun _ => ImgResult.notImage) 10 (SendOutcome.ok 200) 0
        "j1" "img" procStateFree).2.jobs "j1").bind Job.status = some "processing") :=
  (process_rejection_leaves_processing.1 (fun _ => none) (fun _ => ImgResult.notImage)
    10 (SendOutcome.ok 200) 0 "j1" "img" procStateFree (by decide) (by decide) rfl).1 rfl

end SkyApps
